import Mathlib

set_option maxHeartbeats 1000000

/-!
Shallow embedding of the mplex stream multiplexer connection core
(`libp2p/stream_muxer/mplex/mplex.py`).

Python dictionaries are modelled as association lists (insertion order
preserved, assignment replaces in place, `del` removes the key).  Trio
memory channels are modelled by their observable state: a buffer of queued
payloads plus a `closed` flag.  Trio events are booleans (one-shot,
monotonic).  Bytes are `List Nat`.  Operations that would raise an
uncaught Python exception (`KeyError`, `TypeError` on a `None` table,
sending on a closed channel) return `none`; `MplexUnavailable`, which
`handle_incoming` catches, is a distinguished outcome.
-/

/-- StreamID (from `datastructures.py`, whose shape is fixed by the spec):
the pair `(channel_id, is_initiator)` keying the per-connection stream
tables. -/
structure StreamID where
  channel_id : Nat
  is_initiator : Bool
deriving DecidableEq, Repr

/-- Header tag values (from `constants.py`; values fixed by the spec's flag
table and by the mplex wire protocol). -/
def NewStreamTag : Nat := 0

/-- MessageReceiver flag value. -/
def MessageReceiverTag : Nat := 1

/-- MessageInitiator flag value. -/
def MessageInitiatorTag : Nat := 2

/-- CloseReceiver flag value. -/
def CloseReceiverTag : Nat := 3

/-- CloseInitiator flag value. -/
def CloseInitiatorTag : Nat := 4

/-- ResetReceiver flag value. -/
def ResetReceiverTag : Nat := 5

/-- ResetInitiator flag value. -/
def ResetInitiatorTag : Nat := 6

/-- Lookup in an association list keyed by `StreamID` (Python `d[k]` /
`k in d`). -/
def alookup {α : Type} : List (StreamID × α) → StreamID → Option α
  | [], _ => none
  | (k, v) :: rest, key => if key = k then some v else alookup rest key

/-- Assignment `d[k] = v` on a Python dict: replace in place when the key
exists, append otherwise. -/
def ainsert {α : Type} : List (StreamID × α) → StreamID → α → List (StreamID × α)
  | [], key, v => [(key, v)]
  | (k, w) :: rest, key, v =>
    if k = key then (key, v) :: rest else (k, w) :: ainsert rest key v

/-- Deletion `del d[k]` on a Python dict (removes every entry under the
key; the tables built by the embedded operations never hold a key twice). -/
def aerase {α : Type} : List (StreamID × α) → StreamID → List (StreamID × α)
  | [], _ => []
  | (k, v) :: rest, key =>
    if k = key then aerase rest key else (k, v) :: aerase rest key

/-- State of one trio memory channel used as a per-stream inbox: the queued
payloads and whether the send side has been closed (`aclose`). -/
structure MsgChannel where
  buffer : List (List Nat)
  closed : Bool
deriving DecidableEq, Repr

/-- Per-stream object, restricted to the fields `mplex.py` reads and
writes: the three one-shot close/reset events, plus the immutable name and
id (`mplex_stream.py` itself is outside the embedded sources; these fields
are exactly the ones the connection core touches). -/
structure MplexStream where
  name : String
  stream_id : StreamID
  event_local_closed : Bool
  event_remote_closed : Bool
  event_reset : Bool
deriving DecidableEq, Repr

/-- Connection-level state of `Mplex`.  `streams` is an `Option` because
`_cleanup` executes `self.streams = None`; `streams_msg_channels` is the
parallel table of inbox send channels.  The accept queue
(`new_stream_send_channel` / `new_stream_receive_channel`) is modelled by
its buffer and the closed flags of its two endpoints.  `secured_conn_closed`
records whether `secured_conn.close()` has been called. -/
structure MplexState where
  next_channel_id : Nat
  streams : Option (List (StreamID × MplexStream))
  streams_msg_channels : List (StreamID × MsgChannel)
  accept_queue : List MplexStream
  new_stream_send_closed : Bool
  new_stream_receive_closed : Bool
  event_shutting_down : Bool
  event_closed : Bool
  secured_conn_closed : Bool
deriving DecidableEq, Repr

/-- State of a freshly constructed `Mplex` (its `__init__`). -/
def initMplex : MplexState :=
  { next_channel_id := 0
    streams := some []
    streams_msg_channels := []
    accept_queue := []
    new_stream_send_closed := false
    new_stream_receive_closed := false
    event_shutting_down := false
    event_closed := false
    secured_conn_closed := false }

/-- Key-membership in the (possibly `None`) `streams` table; `none` has no
keys. -/
def inStreams (s : MplexState) (sid : StreamID) : Bool :=
  match s.streams with
  | none => false
  | some tbl => (alookup tbl sid).isSome

/-- Invariant 5 of the spec: `streams` and `streams_msg_channels` hold
exactly the same keys. -/
def tablesInv (s : MplexState) : Prop :=
  ∀ sid, inStreams s sid = (alookup s.streams_msg_channels sid).isSome

/-- Mplex.is_closed. -/
def is_closed (s : MplexState) : Bool :=
  s.event_closed

/-- Mplex._get_next_channel_id: return the counter and post-increment it. -/
def _get_next_channel_id (s : MplexState) : Nat × MplexState :=
  (s.next_channel_id, { s with next_channel_id := s.next_channel_id + 1 })

/-- Mplex._initialize_stream: open a fresh unbounded inbox channel, build
the stream object, and insert both under `streams_lock`.  `none` models the
`TypeError` raised when `streams` is already `None`. -/
def _initialize_stream (s : MplexState) (stream_id : StreamID) (name : String) :
    Option (MplexStream × MplexState) :=
  match s.streams with
  | none => none
  | some tbl =>
    let stream : MplexStream :=
      { name := name
        stream_id := stream_id
        event_local_closed := false
        event_remote_closed := false
        event_reset := false }
    some (stream,
      { s with
        streams := some (ainsert tbl stream_id stream)
        streams_msg_channels :=
          ainsert s.streams_msg_channels stream_id { buffer := [], closed := false } })

/-- Observable actions `open_stream` performs, in program order: the table
insertion done by `_initialize_stream`, and the frame handed to
`send_message`. -/
inductive MuxEvent
  | insertStream (sid : StreamID)
  | sendFrame (flag : Nat) (sid : StreamID) (payload : List Nat)
deriving DecidableEq, Repr

/-- UTF-8 bytes of a stream name (`name.encode()`); exact for the ASCII
decimal names `open_stream` creates. -/
def nameBytes (s : String) : List Nat :=
  s.data.map Char.toNat

/-- Mplex.open_stream: allocate the next channel id, build the stream named
by the decimal id, insert it into both tables, then emit the NewStream
frame.  The returned trace lists those two effects in program order. -/
def open_stream (s : MplexState) : Option (MplexStream × MplexState × List MuxEvent) :=
  let alloc := _get_next_channel_id s
  let channel_id := alloc.1
  let s1 := alloc.2
  let stream_id : StreamID := { channel_id := channel_id, is_initiator := true }
  let name := toString channel_id
  match _initialize_stream s1 stream_id name with
  | none => none
  | some (stream, s2) =>
    some (stream, s2,
      [MuxEvent.insertStream stream_id,
       MuxEvent.sendFrame NewStreamTag stream_id (nameBytes name)])

/-- Modelled from the spec: `encode_uvarint` of `libp2p/utils.py` (not among
the embedded sources) — canonical little-endian base-128 encoding with a
continuation bit.  A byte `b < 256` has continuation bit clear iff
`b < 128`, and its payload bits are `b % 128`. -/
def encode_uvarint (n : Nat) : List Nat :=
  if n < 128 then [n]
  else (n % 128 + 128) :: encode_uvarint (n / 128)
termination_by n
decreasing_by
  exact Nat.div_lt_self (by omega) (by omega)

/-- Modelled from the spec: `encode_varint_prefixed` of `libp2p/utils.py`
(not among the embedded sources) — prepend the varint-encoded length. -/
def encode_varint_prefixed (data : List Nat) : List Nat :=
  encode_uvarint data.length ++ data

/-- Modelled from the spec: the loop of `decode_uvarint_from_stream` of
`libp2p/utils.py` (not among the embedded sources) — read bytes until one
with clear continuation bit, failing once more than nine bytes would be
consumed or the input ends mid-integer.  Returns the value and the rest of
the input. -/
def decode_uvarint_aux : List Nat → Nat → Nat → Nat → Option (Nat × List Nat)
  | [], _, _, _ => none
  | b :: rest, acc, shift, cnt =>
    if 9 ≤ cnt then none
    else
      let acc2 := acc + b % 128 * 2 ^ shift
      if b < 128 then some (acc2, rest)
      else decode_uvarint_aux rest acc2 (shift + 7) (cnt + 1)

/-- Modelled from the spec: `decode_uvarint_from_stream` over a byte list. -/
def decode_uvarint (bs : List Nat) : Option (Nat × List Nat) :=
  decode_uvarint_aux bs 0 0 0

/-- Modelled from the spec: `read_varint_prefixed_bytes` of
`libp2p/utils.py` (not among the embedded sources) — read a varint length
then exactly that many bytes, failing with incomplete-read at EOF. -/
def read_varint_prefixed_bytes (bs : List Nat) : Option (List Nat × List Nat) :=
  match decode_uvarint bs with
  | none => none
  | some (n, rest) =>
    if rest.length < n then none else some (rest.take n, rest.drop n)

/-- Mplex.read_message over the pending input bytes: decode the header
varint, then the varint-prefixed body, and split the header into
`flag = header AND 0x07`, `channel_id = header >> 3`.  Returns
`(channel_id, flag, message)` and the remaining input; `none` models the
`MplexUnavailable` raised on a parse or read failure. -/
def read_message (bs : List Nat) : Option ((Nat × Nat × List Nat) × List Nat) :=
  match decode_uvarint bs with
  | none => none
  | some (header, rest) =>
    match read_varint_prefixed_bytes rest with
    | none => none
    | some (message, rest2) =>
      some ((header >>> 3, header &&& 0x07, message), rest2)

/-- Mplex.send_message composed with Mplex.write_to_stream: the bytes
written to the secured connection (header varint, then varint-prefixed
payload, with `None` data meaning empty) and the returned length.  Frame
emission is modelled by returning the bytes. -/
def send_message (flag : Nat) (data : Option (List Nat)) (stream_id : StreamID) :
    List Nat × Nat :=
  let header := encode_uvarint ((stream_id.channel_id <<< 3) ||| flag)
  let d := match data with
    | none => []
    | some d => d
  let bs := header ++ encode_varint_prefixed d
  (bs, bs.length)

/-- Stream-table key the read loop uses for an incoming frame:
`StreamID(channel_id, is_initiator=bool(flag AND 1))` (line 241 of
`mplex.py`). -/
def incomingStreamId (channel_id flag : Nat) : StreamID :=
  { channel_id := channel_id, is_initiator := flag &&& 1 != 0 }

/-- Mplex._handle_message: drop frames for unknown ids, drop data after the
remote already closed, otherwise enqueue the payload on the stream's inbox.
`none` models the uncaught exceptions (the `KeyError` on a missing channel
entry and trio's error on sending to a closed channel). -/
def _handle_message (s : MplexState) (stream_id : StreamID) (message : List Nat) :
    Option MplexState :=
  match s.streams with
  | none => none
  | some tbl =>
    match alookup tbl stream_id with
    | none => some s
    | some stream =>
      match alookup s.streams_msg_channels stream_id with
      | none => none
      | some ch =>
        if stream.event_remote_closed then some s
        else if ch.closed then none
        else
          some { s with
            streams_msg_channels :=
              ainsert s.streams_msg_channels stream_id
                { ch with buffer := ch.buffer ++ [message] } }

/-- Mplex._handle_close: ignore unknown ids; otherwise close the inbox
sender, then under `close_lock` return if the remote already closed, else
set `event_remote_closed`, and when the local side is closed too delete the
entry from `streams` (the source deletes from `streams` only). -/
def _handle_close (s : MplexState) (stream_id : StreamID) : Option MplexState :=
  match s.streams with
  | none => none
  | some tbl =>
    match alookup tbl stream_id with
    | none => some s
    | some stream =>
      match alookup s.streams_msg_channels stream_id with
      | none => none
      | some ch =>
        let s1 := { s with
          streams_msg_channels :=
            ainsert s.streams_msg_channels stream_id { ch with closed := true } }
        if stream.event_remote_closed then some s1
        else
          let stream2 := { stream with event_remote_closed := true }
          let tbl2 := ainsert tbl stream_id stream2
          let s2 := { s1 with streams := some tbl2 }
          if stream.event_local_closed then
            if (alookup tbl2 stream_id).isSome then
              some { s2 with streams := some (aerase tbl2 stream_id) }
            else some s2
          else some s2

/-- Mplex._handle_reset: ignore unknown ids; otherwise close the inbox
sender, set `event_reset` and `event_remote_closed` if the remote had not
closed, set `event_local_closed` if unset, then delete the id from both
tables.  The second component returns the stream object and channel as the
handler leaves them (they outlive the table entries in Python). -/
def _handle_reset (s : MplexState) (stream_id : StreamID) :
    Option (MplexState × Option (MplexStream × MsgChannel)) :=
  match s.streams with
  | none => none
  | some tbl =>
    match alookup tbl stream_id with
    | none => some (s, none)
    | some stream =>
      match alookup s.streams_msg_channels stream_id with
      | none => none
      | some ch =>
        let ch2 := { ch with closed := true }
        let chans1 := ainsert s.streams_msg_channels stream_id ch2
        let stream2 :=
          if !stream.event_remote_closed then
            { stream with event_reset := true, event_remote_closed := true }
          else stream
        let stream3 :=
          if !stream2.event_local_closed then
            { stream2 with event_local_closed := true }
          else stream2
        let tbl2 := ainsert tbl stream_id stream3
        if (alookup tbl2 stream_id).isSome then
          some ({ s with
                  streams := some (aerase tbl2 stream_id)
                  streams_msg_channels := aerase chans1 stream_id },
                some (stream3, ch2))
        else
          some ({ s with
                  streams := some tbl2
                  streams_msg_channels := chans1 },
                some (stream3, ch2))

/-- Modelled from the spec: `MplexStream.reset` (`mplex_stream.py` is not
among the embedded sources), as invoked by the unknown-flag branch of
`_handle_incoming_message`.  Idempotent: if both sides are already closed
return unchanged; otherwise set all three events, close the inbox, and
remove the stream from both tables (the best-effort Reset frame emission is
not tracked in the state). -/
def streamReset (s : MplexState) (stream_id : StreamID) (stream : MplexStream) :
    MplexState :=
  if stream.event_local_closed && stream.event_remote_closed then s
  else
    let chans := match alookup s.streams_msg_channels stream_id with
      | none => s.streams_msg_channels
      | some ch => ainsert s.streams_msg_channels stream_id { ch with closed := true }
    { s with
      streams := s.streams.map (fun tbl => aerase tbl stream_id)
      streams_msg_channels := aerase chans stream_id }

/-- Outcome of one handler call as seen by `handle_incoming`: normal
return, a raised `MplexUnavailable` (which the loop catches and turns into
shutdown), or any other uncaught exception. -/
inductive HandlerOutcome
  | ok (s : MplexState)
  | unavailable (s : MplexState)
  | err
deriving DecidableEq, Repr

/-- Lift a fallible state transformer into a handler outcome. -/
def liftOpt : Option MplexState → HandlerOutcome
  | none => HandlerOutcome.err
  | some s => HandlerOutcome.ok s

/-- Mplex._handle_new_stream: raise `MplexUnavailable` when the id already
exists; otherwise initialize the stream (inserting into both tables) and
enqueue it on the accept queue, raising `MplexUnavailable` if the accept
channel is broken (after the tables were already updated). -/
def _handle_new_stream (s : MplexState) (stream_id : StreamID) (message : List Nat) :
    HandlerOutcome :=
  match s.streams with
  | none => HandlerOutcome.err
  | some tbl =>
    if (alookup tbl stream_id).isSome then HandlerOutcome.unavailable s
    else
      match _initialize_stream s stream_id (String.mk (message.map Char.ofNat)) with
      | none => HandlerOutcome.err
      | some (stream, s1) =>
        if s1.new_stream_send_closed then HandlerOutcome.unavailable s1
        else HandlerOutcome.ok { s1 with accept_queue := s1.accept_queue ++ [stream] }

/-- Mplex._handle_incoming_message past the `read_message` call: compute
the table key `StreamID(channel_id, bool(flag AND 1))` and dispatch on the
flag, with the unknown-flag branch resetting the stream when present. -/
def _handle_incoming_message (s : MplexState) (channel_id flag : Nat)
    (message : List Nat) : HandlerOutcome :=
  let stream_id := incomingStreamId channel_id flag
  if flag == NewStreamTag then
    _handle_new_stream s stream_id message
  else if flag == MessageInitiatorTag || flag == MessageReceiverTag then
    liftOpt (_handle_message s stream_id message)
  else if flag == CloseInitiatorTag || flag == CloseReceiverTag then
    liftOpt (_handle_close s stream_id)
  else if flag == ResetInitiatorTag || flag == ResetReceiverTag then
    liftOpt ((_handle_reset s stream_id).map Prod.fst)
  else
    match s.streams with
    | none => HandlerOutcome.err
    | some tbl =>
      match alookup tbl stream_id with
      | none => HandlerOutcome.ok s
      | some stream => HandlerOutcome.ok (streamReset s stream_id stream)

/-- Per-stream body of the `_cleanup` loop under the stream's `close_lock`:
when the remote had not closed, set all three events. -/
def finalizeStream (stream : MplexStream) : MplexStream :=
  if !stream.event_remote_closed then
    { stream with
      event_remote_closed := true
      event_reset := true
      event_local_closed := true }
  else stream

/-- Helper for `_cleanup`: walk the `streams` table in order; for each
stream set the three events when the remote had not closed, and close its
inbox send channel (a `KeyError` on a missing channel entry is `none`).
Returns the streams as mutated, in table order, and the updated channel
table. -/
def cleanupStreams : List (StreamID × MplexStream) → List (StreamID × MsgChannel) →
    Option (List (StreamID × MplexStream) × List (StreamID × MsgChannel))
  | [], chans => some ([], chans)
  | (sid, stream) :: rest, chans =>
    match alookup chans sid with
    | none => none
    | some ch =>
      let chans2 := ainsert chans sid { ch with closed := true }
      match cleanupStreams rest chans2 with
      | none => none
      | some (fin, chans3) => some ((sid, finalizeStream stream) :: fin, chans3)

/-- Mplex._cleanup: ensure `event_shutting_down`, finalize every remaining
stream, set `self.streams = None` (leaving `streams_msg_channels` in
place), set `event_closed`, then close both accept-queue endpoints.  The
second component returns the finalized stream objects in table order. -/
def _cleanup (s : MplexState) :
    Option (MplexState × List (StreamID × MplexStream)) :=
  match s.streams with
  | none => none
  | some tbl =>
    match cleanupStreams tbl s.streams_msg_channels with
    | none => none
    | some (fin, chans) =>
      some ({ s with
              event_shutting_down := true
              streams := none
              streams_msg_channels := chans
              event_closed := true
              new_stream_send_closed := true
              new_stream_receive_closed := true },
            fin)

/-- Result of a call to Mplex.close: either the call returned, or it is
suspended in `await self.event_closed.wait()`. -/
inductive CloseResult
  | returned (s : MplexState)
  | waiting (s : MplexState)
deriving DecidableEq, Repr

/-- Mplex.close: return at once when `event_shutting_down` is already set;
otherwise set it, close the secured connection, and wait on `event_closed`
(returning immediately only if it is already set). -/
def close (s : MplexState) : CloseResult :=
  if s.event_shutting_down then CloseResult.returned s
  else if s.event_closed then
    CloseResult.returned
      { s with event_shutting_down := true, secured_conn_closed := true }
  else
    CloseResult.waiting
      { s with event_shutting_down := true, secured_conn_closed := true }

/-- Input events feeding `handle_incoming`: either a decoded frame or a
read failure (`ParseError`, `RawConnError`, `IncompleteReadError`), which
`read_message` re-raises as `MplexUnavailable`. -/
inductive InEvent
  | frame (channel_id : Nat) (flag : Nat) (message : List Nat)
  | readError
deriving DecidableEq, Repr

/-- Mplex.handle_incoming: process incoming events until one raises
`MplexUnavailable`, then break out of the loop and run `_cleanup`.  An
empty remaining input leaves the loop blocked reading (state returned
as-is); any other uncaught exception is `none`. -/
def handle_incoming : MplexState → List InEvent → Option MplexState
  | s, [] => some s
  | s, InEvent.readError :: _ => (_cleanup s).map Prod.fst
  | s, InEvent.frame channel_id flag message :: rest =>
    match _handle_incoming_message s channel_id flag message with
    | HandlerOutcome.ok s1 => handle_incoming s1 rest
    | HandlerOutcome.unavailable s1 => (_cleanup s1).map Prod.fst
    | HandlerOutcome.err => none
/-- Stream id 0 as the remote peer's NewStream would key it (initiator
false on the local side). -/
def sid0 : StreamID :=
  { channel_id := 0, is_initiator := false }

/-- Concrete stream whose local side has already closed while the remote
side has not (the state a stream is in after a local `close()` and before
any Close frame arrives). -/
def cxStreamLocalClosed : MplexStream :=
  { name := "0"
    stream_id := sid0
    event_local_closed := true
    event_remote_closed := false
    event_reset := false }

/-- Concrete connection state holding exactly that one stream, with its
inbox channel present and open. -/
def cxStateClose : MplexState :=
  { initMplex with
    streams := some [(sid0, cxStreamLocalClosed)]
    streams_msg_channels := [(sid0, { buffer := [], closed := false })] }

/-- Connection state midway through a first `close()` call: `shutting_down`
set and the transport closed, `closed` not yet fired (the read loop has not
reached `_cleanup`). -/
def shuttingState : MplexState :=
  { initMplex with
    event_shutting_down := true
    secured_conn_closed := true }

/-- State `_cleanup` leaves behind when run from `shuttingState` (no live
streams). -/
def cleanedState : MplexState :=
  { shuttingState with
    event_shutting_down := true
    streams := none
    streams_msg_channels := []
    event_closed := true
    new_stream_send_closed := true
    new_stream_receive_closed := true }

/-- State `_cleanup` leaves behind when run from `cxStateClose` (one live
stream whose inbox gets closed). -/
def cleanedCxState : MplexState :=
  { cxStateClose with
    event_shutting_down := true
    streams := none
    streams_msg_channels := [(sid0, { buffer := [], closed := true })]
    event_closed := true
    new_stream_send_closed := true
    new_stream_receive_closed := true }

theorem alookup_ainsert {α : Type} (l : List (StreamID × α)) (k k' : StreamID) (v : α) :
    alookup (ainsert l k v) k' = if k' = k then some v else alookup l k' := by
  induction l with
  | nil => simp [ainsert, alookup]
  | cons p rest ih =>
    obtain ⟨pk, pv⟩ := p
    simp only [ainsert]
    by_cases hpk : pk = k
    · subst hpk
      simp only [if_pos rfl, alookup]
      by_cases hk' : k' = pk <;> simp [hk']
    · simp only [if_neg hpk, alookup, ih]
      by_cases hk' : k' = pk
      · simp [hk', show ¬pk = k from hpk]
      · simp [hk']

theorem alookup_aerase {α : Type} (l : List (StreamID × α)) (k k' : StreamID) :
    alookup (aerase l k) k' = if k' = k then none else alookup l k' := by
  induction l with
  | nil => simp [aerase, alookup]
  | cons p rest ih =>
    obtain ⟨pk, pv⟩ := p
    simp only [aerase]
    by_cases hpk : pk = k
    · subst hpk
      rw [if_pos rfl, ih]
      by_cases hk' : k' = pk <;> simp [hk', alookup]
    · rw [if_neg hpk]
      simp only [alookup, ih]
      by_cases hk' : k' = pk
      · simp [hk', show ¬pk = k from hpk]
      · simp [hk']

theorem encode_uvarint_length_pos (n : Nat) : 0 < (encode_uvarint n).length := by
  rw [encode_uvarint]
  split <;> simp

theorem decode_uvarint_aux_encode (k : Nat) :
    ∀ (n acc shift cnt : Nat) (rest : List Nat),
      n < 2 ^ (7 * (k + 1)) → cnt + (k + 1) ≤ 9 →
      decode_uvarint_aux (encode_uvarint n ++ rest) acc shift cnt =
        some (acc + n * 2 ^ shift, rest) := by
  induction k with
  | zero =>
    intro n acc shift cnt rest hn hcnt
    have hn' : n < 128 := by norm_num at hn; omega
    have henc : encode_uvarint n ++ rest = n :: rest := by
      rw [encode_uvarint, if_pos hn']; rfl
    rw [henc]
    simp only [decode_uvarint_aux]
    rw [if_neg (by omega : ¬9 ≤ cnt), if_pos hn', Nat.mod_eq_of_lt hn']
  | succ k ih =>
    intro n acc shift cnt rest hn hcnt
    by_cases hn' : n < 128
    · have henc : encode_uvarint n ++ rest = n :: rest := by
        rw [encode_uvarint, if_pos hn']; rfl
      rw [henc]
      simp only [decode_uvarint_aux]
      rw [if_neg (by omega : ¬9 ≤ cnt), if_pos hn', Nat.mod_eq_of_lt hn']
    · have henc : encode_uvarint n ++ rest
          = (n % 128 + 128) :: (encode_uvarint (n / 128) ++ rest) := by
        rw [encode_uvarint, if_neg hn']; rfl
      rw [henc]
      simp only [decode_uvarint_aux]
      rw [if_neg (by omega : ¬9 ≤ cnt), if_neg (by omega : ¬n % 128 + 128 < 128)]
      have hmod : (n % 128 + 128) % 128 = n % 128 := by omega
      have hdiv : n / 128 < 2 ^ (7 * (k + 1)) := by
        rw [Nat.div_lt_iff_lt_mul (by norm_num : (0 : Nat) < 128)]
        calc n < 2 ^ (7 * (k + 1 + 1)) := hn
          _ = 2 ^ (7 * (k + 1)) * 128 := by
            rw [show 7 * (k + 1 + 1) = 7 * (k + 1) + 7 by ring, pow_add]
            norm_num
      rw [hmod, ih (n / 128) (acc + n % 128 * 2 ^ shift) (shift + 7) (cnt + 1) rest hdiv
        (by omega)]
      have hsplit : n % 128 + 128 * (n / 128) = n := Nat.mod_add_div n 128
      have hpow : (2 : Nat) ^ (shift + 7) = 2 ^ shift * 128 := by
        rw [pow_add]; norm_num
      congr 2
      calc acc + n % 128 * 2 ^ shift + n / 128 * 2 ^ (shift + 7)
          = acc + (n % 128 + 128 * (n / 128)) * 2 ^ shift := by rw [hpow]; ring
        _ = acc + n * 2 ^ shift := by rw [hsplit]

theorem decode_uvarint_encode (n : Nat) (rest : List Nat) (h : n < 2 ^ 63) :
    decode_uvarint (encode_uvarint n ++ rest) = some (n, rest) := by
  have h9 : n < 2 ^ (7 * (8 + 1)) := by norm_num at h ⊢; omega
  have := decode_uvarint_aux_encode 8 n 0 0 0 rest h9 (by omega)
  simpa [decode_uvarint] using this

theorem read_varint_prefixed_bytes_encode (msg rest : List Nat)
    (h : msg.length < 2 ^ 63) :
    read_varint_prefixed_bytes (encode_varint_prefixed msg ++ rest) = some (msg, rest) := by
  rw [encode_varint_prefixed, List.append_assoc, read_varint_prefixed_bytes,
    decode_uvarint_encode msg.length (msg ++ rest) h]
  simp only [List.length_append]
  rw [if_neg (by omega)]
  rw [List.take_left, List.drop_left]

theorem read_message_encode (h : Nat) (msg rest : List Nat)
    (hh : h < 2 ^ 63) (hm : msg.length < 2 ^ 63) :
    read_message (encode_uvarint h ++ (encode_varint_prefixed msg ++ rest)) =
      some ((h >>> 3, h &&& 0x07, msg), rest) := by
  have h1 : read_message (encode_uvarint h ++ (encode_varint_prefixed msg ++ rest)) =
      match read_varint_prefixed_bytes (encode_varint_prefixed msg ++ rest) with
      | none => none
      | some (message, rest2) => some ((h >>> 3, h &&& 0x07, message), rest2) := by
    rw [read_message, decode_uvarint_encode h _ hh]
  rw [h1, read_varint_prefixed_bytes_encode msg rest hm]

/-- C10: for every flag, stream id and data argument (with `None` treated
as the empty payload), `send_message` writes exactly
`encode_uvarint((channel_id << 3) | flag) ++ encode_varint_prefixed(data)`
to the secured connection and returns the length of that whole frame,
which is strictly greater than the payload length. -/
theorem send_message_encodes_frame (flag : Nat) (data : Option (List Nat))
    (stream_id : StreamID) :
    (send_message flag data stream_id).1 =
      encode_uvarint ((stream_id.channel_id <<< 3) ||| flag) ++
        encode_varint_prefixed (data.getD []) ∧
    (send_message flag data stream_id).2 = (send_message flag data stream_id).1.length ∧
    (data.getD []).length < (send_message flag data stream_id).2 := by
  have hpos1 := encode_uvarint_length_pos ((stream_id.channel_id <<< 3) ||| flag)
  have hpos2 := encode_uvarint_length_pos (data.getD []).length
  cases data with
  | none =>
    refine ⟨rfl, rfl, ?_⟩
    simp only [send_message, encode_varint_prefixed, List.length_append,
      Option.getD_none] at hpos1 hpos2 ⊢
    omega
  | some d =>
    refine ⟨rfl, rfl, ?_⟩
    simp only [send_message, encode_varint_prefixed, List.length_append,
      Option.getD_some] at hpos1 hpos2 ⊢
    omega

/-- C9: `read_message` yields `flag = header AND 0x07` and
`channel_id = header >> 3` for every frame read off the connection, and
for every non-NewStream frame the read loop keys the stream tables by
`StreamID(channel_id, is_initiator = ((flag AND 1) == 1))`. -/
theorem read_message_flag_and_lookup_key (h cid flag : Nat) (msg rest : List Nat)
    (hh : h < 2 ^ 63) (hm : msg.length < 2 ^ 63) :
    read_message (encode_uvarint h ++ (encode_varint_prefixed msg ++ rest)) =
      some ((h >>> 3, h &&& 0x07, msg), rest) ∧
    incomingStreamId cid flag =
      { channel_id := cid, is_initiator := decide (flag &&& 1 = 1) } ∧
    ((flag = MessageInitiatorTag ∨ flag = MessageReceiverTag) → ∀ s,
      _handle_incoming_message s cid flag msg =
        liftOpt (_handle_message s (incomingStreamId cid flag) msg)) ∧
    ((flag = CloseInitiatorTag ∨ flag = CloseReceiverTag) → ∀ s,
      _handle_incoming_message s cid flag msg =
        liftOpt (_handle_close s (incomingStreamId cid flag))) ∧
    ((flag = ResetInitiatorTag ∨ flag = ResetReceiverTag) → ∀ s,
      _handle_incoming_message s cid flag msg =
        liftOpt ((_handle_reset s (incomingStreamId cid flag)).map Prod.fst)) := by
  refine ⟨read_message_encode h msg rest hh hm, ?_, ?_, ?_, ?_⟩
  · simp only [incomingStreamId, StreamID.mk.injEq, true_and]
    rw [Nat.and_one_is_mod]
    rcases Nat.mod_two_eq_zero_or_one flag with h2 | h2 <;> simp [h2]
  · rintro (rfl | rfl) s <;> rfl
  · rintro (rfl | rfl) s <;> rfl
  · rintro (rfl | rfl) s <;> rfl

theorem alookup_ainsert_isSome {α : Type} (l : List (StreamID × α)) (k k' : StreamID)
    (v : α) :
    (alookup (ainsert l k v) k').isSome = (decide (k' = k) || (alookup l k').isSome) := by
  rw [alookup_ainsert]
  by_cases h : k' = k <;> simp [h]

theorem alookup_aerase_isSome {α : Type} (l : List (StreamID × α)) (k k' : StreamID) :
    (alookup (aerase l k) k').isSome = (!decide (k' = k) && (alookup l k').isSome) := by
  rw [alookup_aerase]
  by_cases h : k' = k <;> simp [h]

/-- C4: a NewStream frame whose StreamID (channel id with local initiator
false) already exists makes `_handle_new_stream` raise `MplexUnavailable`
with the state untouched, upon which `handle_incoming` exits its loop and
runs `_cleanup`, whatever input would have followed. -/
theorem duplicate_new_stream_terminal (s : MplexState)
    (tbl : List (StreamID × MplexStream)) (cid : Nat) (msg : List Nat)
    (rest : List InEvent) (hs : s.streams = some tbl)
    (hdup : (alookup tbl { channel_id := cid, is_initiator := false }).isSome = true) :
    _handle_new_stream s { channel_id := cid, is_initiator := false } msg =
      HandlerOutcome.unavailable s ∧
    handle_incoming s (InEvent.frame cid NewStreamTag msg :: rest) =
      (_cleanup s).map Prod.fst := by
  have h1 : _handle_new_stream s { channel_id := cid, is_initiator := false } msg =
      HandlerOutcome.unavailable s := by
    simp [_handle_new_stream, hs, hdup]
  refine ⟨h1, ?_⟩
  have hsid : incomingStreamId cid NewStreamTag =
      { channel_id := cid, is_initiator := false } := rfl
  have h2 : _handle_incoming_message s cid NewStreamTag msg =
      HandlerOutcome.unavailable s := by
    simp only [_handle_incoming_message, hsid, beq_self_eq_true, if_pos]
    exact h1
  simp [handle_incoming, h2]

/-- C5: `_handle_reset` on an id absent from the tables returns with no
state change; on a present stream it closes the inbox send channel, ends
with `remote_closed` and `local_closed` set, sets `reset` exactly when
`remote_closed` was not already set, and deletes the id from both
`streams` and `streams_msg_channels`. -/
theorem handle_reset_behavior (s : MplexState) (tbl : List (StreamID × MplexStream))
    (sid : StreamID) (hs : s.streams = some tbl) :
    (alookup tbl sid = none → _handle_reset s sid = some (s, none)) ∧
    (∀ stream ch, alookup tbl sid = some stream →
      alookup s.streams_msg_channels sid = some ch →
      (_handle_reset s sid).map
          (fun r => (inStreams r.1 sid,
            (alookup r.1.streams_msg_channels sid).isSome,
            r.2.map (fun p => (p.2.closed, p.1.event_remote_closed,
              p.1.event_local_closed, p.1.event_reset)))) =
        some (false, false,
          some (true, true, true,
            stream.event_reset || !stream.event_remote_closed))) := by
  constructor
  · intro habs
    simp [_handle_reset, hs, habs]
  · intro stream ch hstream hch
    by_cases hrc : stream.event_remote_closed
    · by_cases hlc : stream.event_local_closed
      · simp [_handle_reset, hs, hstream, hch, hrc, hlc, alookup_ainsert,
          inStreams, alookup_aerase]
      · simp [_handle_reset, hs, hstream, hch, hrc, hlc, alookup_ainsert,
          inStreams, alookup_aerase]
    · by_cases hlc : stream.event_local_closed
      · simp [_handle_reset, hs, hstream, hch, hrc, hlc, alookup_ainsert,
          inStreams, alookup_aerase]
      · simp [_handle_reset, hs, hstream, hch, hrc, hlc, alookup_ainsert,
          inStreams, alookup_aerase]

/-- C6: `_handle_message` on an id absent from `streams` returns with no
state change or error; on a present stream whose `remote_closed` event is
set the payload is dropped without error; otherwise the payload is
appended to the stream's inbox channel. -/
theorem handle_message_behavior (s : MplexState) (tbl : List (StreamID × MplexStream))
    (sid : StreamID) (msg : List Nat) (hs : s.streams = some tbl) :
    (alookup tbl sid = none → _handle_message s sid msg = some s) ∧
    (∀ stream ch, alookup tbl sid = some stream →
      alookup s.streams_msg_channels sid = some ch →
      (stream.event_remote_closed = true → _handle_message s sid msg = some s) ∧
      (stream.event_remote_closed = false → ch.closed = false →
        _handle_message s sid msg = some { s with
          streams_msg_channels := ainsert s.streams_msg_channels sid
            { ch with buffer := ch.buffer ++ [msg] } })) := by
  refine ⟨?_, ?_⟩
  · intro habs
    simp [_handle_message, hs, habs]
  · intro stream ch hstream hch
    constructor
    · intro hrc
      simp [_handle_message, hs, hstream, hch, hrc]
    · intro hrc hcl
      simp [_handle_message, hs, hstream, hch, hrc, hcl]

theorem open_stream_eq (s : MplexState) (tbl : List (StreamID × MplexStream))
    (hs : s.streams = some tbl) :
    open_stream s = some
      ({ name := toString s.next_channel_id
         stream_id := { channel_id := s.next_channel_id, is_initiator := true }
         event_local_closed := false
         event_remote_closed := false
         event_reset := false },
       { s with
         next_channel_id := s.next_channel_id + 1
         streams := some (ainsert tbl
           { channel_id := s.next_channel_id, is_initiator := true }
           { name := toString s.next_channel_id
             stream_id := { channel_id := s.next_channel_id, is_initiator := true }
             event_local_closed := false
             event_remote_closed := false
             event_reset := false })
         streams_msg_channels := ainsert s.streams_msg_channels
           { channel_id := s.next_channel_id, is_initiator := true }
           { buffer := [], closed := false } },
       [MuxEvent.insertStream { channel_id := s.next_channel_id, is_initiator := true },
        MuxEvent.sendFrame NewStreamTag
          { channel_id := s.next_channel_id, is_initiator := true }
          (nameBytes (toString s.next_channel_id))]) := by
  simp [open_stream, _get_next_channel_id, _initialize_stream, hs]

/-- C7: `open_stream` allocates the current `next_channel_id` and
increments the counter, so successive calls yield strictly increasing,
never-reused channel ids; the returned stream has id `(cid, true)` and name
`decimal(cid)`, and is inserted into both tables before the NewStream frame
carrying the name bytes is emitted (insertion precedes the frame in the
trace). -/
theorem open_stream_allocation (s : MplexState) (tbl : List (StreamID × MplexStream))
    (hs : s.streams = some tbl) :
    ∃ stream s2 trace, open_stream s = some (stream, s2, trace) ∧
      stream.stream_id = { channel_id := s.next_channel_id, is_initiator := true } ∧
      stream.name = toString s.next_channel_id ∧
      s2.next_channel_id = s.next_channel_id + 1 ∧
      inStreams s2 stream.stream_id = true ∧
      (alookup s2.streams_msg_channels stream.stream_id).isSome = true ∧
      trace = [MuxEvent.insertStream stream.stream_id,
        MuxEvent.sendFrame NewStreamTag stream.stream_id
          (nameBytes (toString s.next_channel_id))] ∧
      (∀ stream2 s3 trace2, open_stream s2 = some (stream2, s3, trace2) →
        stream.stream_id.channel_id < stream2.stream_id.channel_id) := by
  refine ⟨_, _, _, open_stream_eq s tbl hs, rfl, rfl, rfl, ?_, ?_, rfl, ?_⟩
  · simp [inStreams, alookup_ainsert]
  · simp [alookup_ainsert]
  · intro stream2 s3 trace2 h2
    rw [open_stream_eq _ _ rfl] at h2
    have h3 := Option.some.inj h2
    have h5 := congrArg (fun t => t.1.stream_id.channel_id) h3
    simp only [] at h5
    simp only []
    omega

/-- C3 counterexample: a second `close()` arriving while the first is still
in progress (`shutting_down` set by `close initMplex`, `closed` not yet
fired) returns immediately even though the `closed` event is still unset,
contradicting the claim that every `close()` call waits for `closed`. -/
theorem close_counterexample :
    close initMplex = CloseResult.waiting shuttingState ∧
    close shuttingState = CloseResult.returned shuttingState ∧
    is_closed shuttingState = false := by
  refine ⟨?_, ?_, ?_⟩ <;> decide

/-- C3 amended: only the first `close()` call — the one that finds
`shutting_down` unset — waits for the `closed` event before returning; a
`close()` begun while `shutting_down` is already set returns immediately,
possibly before `closed` has been set. -/
theorem close_wait_semantics (s : MplexState) :
    (s.event_shutting_down = false → ∀ s2, close s = CloseResult.returned s2 →
      is_closed s2 = true) ∧
    (s.event_shutting_down = true → close s = CloseResult.returned s) := by
  constructor
  · intro hsd s2 hret
    unfold close at hret
    rw [if_neg (by simp [hsd])] at hret
    split at hret
    case isTrue hc =>
      injection hret with h
      subst h
      simpa [is_closed] using hc
    case isFalse hc =>
      simp at hret
  · intro hsd
    unfold close
    rw [if_pos hsd]

/-- C2 counterexample: when the read loop dies on a transport error without
`close()` ever being called, `_cleanup` sets `closed` but nothing closes
the secured transport, so "after `closed` is set the secured transport has
been closed" is false. -/
theorem closed_without_transport_close :
    (handle_incoming initMplex [InEvent.readError]).map
      (fun s2 => (is_closed s2, s2.secured_conn_closed)) = some (true, false) := by
  decide

theorem cleanup_success_inv (s s2 : MplexState) (fin : List (StreamID × MplexStream))
    (hc : _cleanup s = some (s2, fin)) :
    ∃ tbl chans, s.streams = some tbl ∧
      cleanupStreams tbl s.streams_msg_channels = some (fin, chans) ∧
      s2 = { s with
        event_shutting_down := true
        streams := none
        streams_msg_channels := chans
        event_closed := true
        new_stream_send_closed := true
        new_stream_receive_closed := true } := by
  unfold _cleanup at hc
  cases hstbl : s.streams with
  | none => rw [hstbl] at hc; simp at hc
  | some tbl =>
    rw [hstbl] at hc
    cases hcs : cleanupStreams tbl s.streams_msg_channels with
    | none => simp [hcs] at hc
    | some pr =>
      obtain ⟨fin1, chans⟩ := pr
      simp only [hcs, Option.some.injEq, Prod.mk.injEq] at hc
      obtain ⟨h1, h2⟩ := hc
      subst h2
      exact ⟨tbl, chans, rfl, hcs, h1.symm⟩

/-- C2 amended: on the `close()` path — `close()` sets `shutting_down` and
closes the transport, then the dying read loop runs `_cleanup` — the final
state has `closed` set, no keys in `streams` (it is `None`), both
accept-queue endpoints closed, and the secured transport closed.  Without
a `close()` call the transport clause does not hold. -/
theorem close_then_cleanup_complete (s s1 s2 : MplexState)
    (fin : List (StreamID × MplexStream))
    (hclose : close s = CloseResult.waiting s1)
    (hc : _cleanup s1 = some (s2, fin)) :
    is_closed s2 = true ∧
    (∀ k, inStreams s2 k = false) ∧
    s2.new_stream_send_closed = true ∧
    s2.new_stream_receive_closed = true ∧
    s2.secured_conn_closed = true := by
  have hs1 : s1.secured_conn_closed = true := by
    unfold close at hclose
    split at hclose
    · simp at hclose
    · split at hclose
      · simp at hclose
      · injection hclose with h
        subst h
        rfl
  obtain ⟨tbl, chans, hstbl, hcs, rfl⟩ := cleanup_success_inv s1 s2 fin hc
  exact ⟨rfl, fun k => rfl, rfl, rfl, hs1⟩

/-- C1 counterexample: `_handle_close` on a stream whose local side had
already closed deletes the key from `streams` but leaves it in
`streams_msg_channels`, and `_cleanup` leaves every key in
`streams_msg_channels` while `streams` becomes `None` — so the two tables
do not hold the same keys after those operations. -/
theorem table_parity_counterexample :
    (_handle_close cxStateClose sid0).map
        (fun s2 => (inStreams s2 sid0, (alookup s2.streams_msg_channels sid0).isSome))
      = some (false, true) ∧
    (_cleanup cxStateClose).map
        (fun r => (inStreams r.1 sid0, (alookup r.1.streams_msg_channels sid0).isSome))
      = some (false, true) := by
  constructor <;> decide

/-- C1 amended: `_initialize_stream` and `_handle_reset` preserve the
two-way key parity of `streams` and `streams_msg_channels`;
`_handle_close` preserves only the forward direction — every key of
`streams` is still a key of `streams_msg_channels`, but a key it removes
from `streams` stays behind in `streams_msg_channels` (and `_cleanup`
likewise leaves `streams_msg_channels` populated while emptying
`streams`). -/
theorem table_parity_amended (s : MplexState) (hinv : tablesInv s) :
    (∀ sid name stream s2, _initialize_stream s sid name = some (stream, s2) →
      tablesInv s2) ∧
    (∀ sid r, _handle_reset s sid = some r → tablesInv r.1) ∧
    (∀ sid s2, _handle_close s sid = some s2 →
      ∀ k, inStreams s2 k = true → (alookup s2.streams_msg_channels k).isSome = true) := by
  refine ⟨?_, ?_, ?_⟩
  · intro sid name stream s2 hinit
    cases hstbl : s.streams with
    | none => simp [_initialize_stream, hstbl] at hinit
    | some tbl =>
      simp only [_initialize_stream, hstbl, Option.some.injEq, Prod.mk.injEq] at hinit
      obtain ⟨hstream, hs2⟩ := hinit
      subst hs2
      intro k
      have hk := hinv k
      simp only [inStreams, hstbl] at hk
      simp only [inStreams, alookup_ainsert_isSome, hk]
  · intro sid r hres
    cases hstbl : s.streams with
    | none => simp [_handle_reset, hstbl] at hres
    | some tbl =>
      cases hstream : alookup tbl sid with
      | none =>
        simp only [_handle_reset, hstbl, hstream, Option.some.injEq] at hres
        subst hres
        exact hinv
      | some stream =>
        cases hch : alookup s.streams_msg_channels sid with
        | none => simp [_handle_reset, hstbl, hstream, hch] at hres
        | some ch =>
          simp only [_handle_reset, hstbl, hstream, hch, alookup_ainsert,
            if_pos rfl, Option.isSome_some, if_true, Option.some.injEq] at hres
          subst hres
          intro k
          simp only [inStreams, alookup_aerase_isSome, alookup_ainsert_isSome]
          have hk := hinv k
          simp only [inStreams, hstbl] at hk
          by_cases hks : k = sid
          · simp [hks]
          · simp [hks, hk]
  · intro sid s2 hcl
    cases hstbl : s.streams with
    | none => simp [_handle_close, hstbl] at hcl
    | some tbl =>
      cases hstream : alookup tbl sid with
      | none =>
        simp only [_handle_close, hstbl, hstream, Option.some.injEq] at hcl
        subst hcl
        intro k hk2
        have hk := hinv k
        simp only [inStreams, hstbl] at hk hk2
        rw [← hk]
        exact hk2
      | some stream =>
        cases hch : alookup s.streams_msg_channels sid with
        | none => simp [_handle_close, hstbl, hstream, hch] at hcl
        | some ch =>
          have hk' : ∀ k, (alookup tbl k).isSome =
              (alookup s.streams_msg_channels k).isSome := by
            intro k
            have hk := hinv k
            simp only [inStreams, hstbl] at hk
            exact hk
          by_cases hrc : stream.event_remote_closed
          · simp only [_handle_close, hstbl, hstream, hch, hrc, if_true,
              Option.some.injEq] at hcl
            subst hcl
            intro k hk2
            simp only [inStreams] at hk2
            simp only [alookup_ainsert_isSome]
            by_cases hks : k = sid
            · simp [hks]
            · simp only [hks, decide_eq_true_eq, false_or, Bool.false_or]
              rw [← hk' k]
              simpa using hk2
          · by_cases hlc : stream.event_local_closed
            · simp only [_handle_close, hstbl, hstream, hch, hrc, hlc,
                alookup_ainsert, if_pos rfl, Option.isSome_some, if_true,
                Bool.false_eq_true, if_false, Option.some.injEq] at hcl
              subst hcl
              intro k hk2
              simp only [inStreams, alookup_aerase_isSome, alookup_ainsert_isSome] at hk2
              simp only [alookup_ainsert_isSome]
              by_cases hks : k = sid
              · simp [hks] at hk2
              · simp only [hks, decide_eq_false hks, Bool.false_or] at hk2 ⊢
                rw [← hk' k]
                simpa using hk2
            · simp only [_handle_close, hstbl, hstream, hch, hrc, hlc,
                Bool.false_eq_true, if_false, Option.some.injEq] at hcl
              subst hcl
              intro k hk2
              simp only [inStreams, alookup_ainsert_isSome] at hk2
              simp only [alookup_ainsert_isSome]
              by_cases hks : k = sid
              · simp [hks]
              · simp only [hks, decide_eq_false hks, Bool.false_or] at hk2 ⊢
                rw [← hk' k]
                simpa using hk2

theorem cleanupStreams_spec (tbl : List (StreamID × MplexStream)) :
    ∀ chans fin chans2, cleanupStreams tbl chans = some (fin, chans2) →
      fin = tbl.map (fun p => (p.1, finalizeStream p.2)) ∧
      (∀ k, (alookup chans2 k).isSome = (alookup chans k).isSome) ∧
      (∀ k ch, alookup chans k = some ch → ch.closed = true →
        ∃ ch2, alookup chans2 k = some ch2 ∧ ch2.closed = true) ∧
      (∀ p ∈ tbl, ∃ ch2, alookup chans2 p.1 = some ch2 ∧ ch2.closed = true) := by
  induction tbl with
  | nil =>
    intro chans fin chans2 h
    simp only [cleanupStreams, Option.some.injEq, Prod.mk.injEq] at h
    obtain ⟨h1, h2⟩ := h
    subst h1
    subst h2
    exact ⟨rfl, fun k => rfl, fun k ch h1 h2 => ⟨ch, h1, h2⟩, by simp⟩
  | cons p rest ih =>
    obtain ⟨sid, stream⟩ := p
    intro chans fin chans2 h
    cases hch : alookup chans sid with
    | none => simp [cleanupStreams, hch] at h
    | some ch =>
      simp only [cleanupStreams, hch] at h
      cases hrec : cleanupStreams rest (ainsert chans sid { ch with closed := true }) with
      | none => rw [hrec] at h; simp at h
      | some pr =>
        obtain ⟨fin1, chans3⟩ := pr
        rw [hrec] at h
        simp only [Option.some.injEq, Prod.mk.injEq] at h
        obtain ⟨hfin, hchans⟩ := h
        subst hfin
        subst hchans
        obtain ⟨ih1, ih2, ih3, ih4⟩ := ih _ _ _ hrec
        refine ⟨by simp [ih1], ?_, ?_, ?_⟩
        · intro k
          rw [ih2 k, alookup_ainsert_isSome]
          by_cases hks : k = sid
          · simp [hks, hch]
          · simp [hks]
        · intro k ch' h1 h2
          by_cases hks : k = sid
          · subst hks
            exact ih3 k { ch with closed := true } (by rw [alookup_ainsert]; simp) rfl
          · exact ih3 k ch'
              (by rw [alookup_ainsert]; simp [hks]; exact h1) h2
        · intro p hp
          rcases List.mem_cons.mp hp with hp | hp
          · subst hp
            exact ih3 sid { ch with closed := true } (by rw [alookup_ainsert]; simp) rfl
          · exact ih4 p hp

/-- C8 counterexample: after `_cleanup` runs on a connection with one live
stream, `streams` has been set to `None`, but the stream's key is still
present in `streams_msg_channels` — `_cleanup` does not clear both tables
as the claim states. -/
theorem cleanup_counterexample :
    (_cleanup cxStateClose).map
        (fun r => (r.1.streams, (alookup r.1.streams_msg_channels sid0).isSome))
      = some (none, true) := by
  decide

/-- C8 amended: when `_cleanup` runs it sets `remote_closed`, `reset` and
`local_closed` (under the stream's close lock) for every stream whose
remote had not closed, closes every remaining stream's inbox send channel,
and sets `streams` to `None` (so it holds no entries) — but it leaves
`streams_msg_channels` in place: that table's key set is unchanged rather
than cleared. -/
theorem cleanup_finalizes_streams (s : MplexState)
    (tbl fin : List (StreamID × MplexStream)) (s2 : MplexState)
    (hs : s.streams = some tbl) (hc : _cleanup s = some (s2, fin)) :
    fin = tbl.map (fun p => (p.1, finalizeStream p.2)) ∧
    (∀ stream : MplexStream, stream.event_remote_closed = false →
      (finalizeStream stream).event_remote_closed = true ∧
      (finalizeStream stream).event_reset = true ∧
      (finalizeStream stream).event_local_closed = true) ∧
    (∀ p ∈ tbl, ∃ ch2, alookup s2.streams_msg_channels p.1 = some ch2 ∧
      ch2.closed = true) ∧
    s2.streams = none ∧
    (∀ k, (alookup s2.streams_msg_channels k).isSome =
      (alookup s.streams_msg_channels k).isSome) := by
  obtain ⟨tbl1, chans, hstbl, hcs, rfl⟩ := cleanup_success_inv s s2 fin hc
  rw [hs] at hstbl
  injection hstbl with htbl
  subst htbl
  obtain ⟨spec1, spec2, spec3, spec4⟩ := cleanupStreams_spec tbl _ _ _ hcs
  refine ⟨spec1, ?_, spec4, rfl, spec2⟩
  intro stream hrc
  simp [finalizeStream, hrc]

/-- Witness for C9, at header 20 (channel 2, flag 4) with payload [104]. -/
theorem read_message_flag_witness :
    read_message (encode_uvarint 20 ++ (encode_varint_prefixed [104] ++ [])) =
      some ((2, 4, [104]), []) :=
  (read_message_flag_and_lookup_key 20 2 4 [104] [] (by norm_num) (by norm_num)).1

/-- Witness for C4, on the concrete one-stream connection `cxStateClose`. -/
theorem duplicate_new_stream_witness :
    handle_incoming cxStateClose [InEvent.frame 0 NewStreamTag []] =
      (_cleanup cxStateClose).map Prod.fst :=
  (duplicate_new_stream_terminal cxStateClose [(sid0, cxStreamLocalClosed)] 0 [] []
    rfl (by decide)).2

/-- Witness for C5, resetting the one live stream of `cxStateClose`. -/
theorem handle_reset_witness :
    (_handle_reset cxStateClose sid0).map
        (fun r => (inStreams r.1 sid0,
          (alookup r.1.streams_msg_channels sid0).isSome,
          r.2.map (fun p => (p.2.closed, p.1.event_remote_closed,
            p.1.event_local_closed, p.1.event_reset)))) =
      some (false, false, some (true, true, true,
        cxStreamLocalClosed.event_reset || !cxStreamLocalClosed.event_remote_closed)) :=
  (handle_reset_behavior cxStateClose [(sid0, cxStreamLocalClosed)] sid0 rfl).2
    cxStreamLocalClosed { buffer := [], closed := false } rfl rfl

/-- Witness for C6, delivering one payload to the live stream of
`cxStateClose`. -/
theorem handle_message_witness :
    _handle_message cxStateClose sid0 [104] = some { cxStateClose with
      streams_msg_channels := ainsert cxStateClose.streams_msg_channels sid0
        { buffer := [[104]], closed := false } } :=
  ((handle_message_behavior cxStateClose [(sid0, cxStreamLocalClosed)] sid0 [104]
      rfl).2 cxStreamLocalClosed { buffer := [], closed := false } rfl rfl).2 rfl rfl

/-- Witness for C7, opening the first stream on a fresh connection. -/
theorem open_stream_witness :
    ∃ stream s2 trace, open_stream initMplex = some (stream, s2, trace) ∧
      stream.stream_id = { channel_id := 0, is_initiator := true } ∧
      stream.name = toString 0 ∧
      s2.next_channel_id = 0 + 1 ∧
      inStreams s2 stream.stream_id = true ∧
      (alookup s2.streams_msg_channels stream.stream_id).isSome = true ∧
      trace = [MuxEvent.insertStream stream.stream_id,
        MuxEvent.sendFrame NewStreamTag stream.stream_id (nameBytes (toString 0))] ∧
      (∀ stream2 s3 trace2, open_stream s2 = some (stream2, s3, trace2) →
        stream.stream_id.channel_id < stream2.stream_id.channel_id) :=
  open_stream_allocation initMplex [] rfl

/-- Witness for C1's amended statement, on a fresh connection (whose table
parity holds trivially). -/
theorem table_parity_witness :
    tablesInv initMplex ∧
    ((∀ sid name stream s2, _initialize_stream initMplex sid name = some (stream, s2) →
        tablesInv s2) ∧
      (∀ sid r, _handle_reset initMplex sid = some r → tablesInv r.1) ∧
      (∀ sid s2, _handle_close initMplex sid = some s2 →
        ∀ k, inStreams s2 k = true →
          (alookup s2.streams_msg_channels k).isSome = true)) :=
  ⟨fun _ => rfl, table_parity_amended initMplex (fun _ => rfl)⟩

/-- Witness for C2's amended statement: `close` then `_cleanup` on a fresh
connection. -/
theorem close_cleanup_witness :
    close initMplex = CloseResult.waiting shuttingState ∧
    _cleanup shuttingState = some (cleanedState, []) ∧
    (is_closed cleanedState = true ∧
      (∀ k, inStreams cleanedState k = false) ∧
      cleanedState.new_stream_send_closed = true ∧
      cleanedState.new_stream_receive_closed = true ∧
      cleanedState.secured_conn_closed = true) :=
  ⟨by decide, by decide,
    close_then_cleanup_complete initMplex shuttingState cleanedState []
      (by decide) (by decide)⟩

/-- Witness for C3's amended statement, at the mid-shutdown state. -/
theorem close_wait_witness :
    shuttingState.event_shutting_down = true ∧
    close shuttingState = CloseResult.returned shuttingState :=
  ⟨rfl, (close_wait_semantics shuttingState).2 rfl⟩

/-- Witness for C8's amended statement, cleaning up the one-stream
connection `cxStateClose`. -/
theorem cleanup_finalizes_witness :
    cxStateClose.streams = some [(sid0, cxStreamLocalClosed)] ∧
    _cleanup cxStateClose = some (cleanedCxState,
      [(sid0, finalizeStream cxStreamLocalClosed)]) ∧
    ([(sid0, finalizeStream cxStreamLocalClosed)] =
        [(sid0, cxStreamLocalClosed)].map (fun p => (p.1, finalizeStream p.2)) ∧
      (∀ stream : MplexStream, stream.event_remote_closed = false →
        (finalizeStream stream).event_remote_closed = true ∧
        (finalizeStream stream).event_reset = true ∧
        (finalizeStream stream).event_local_closed = true) ∧
      (∀ p ∈ [(sid0, cxStreamLocalClosed)], ∃ ch2,
        alookup cleanedCxState.streams_msg_channels p.1 = some ch2 ∧
        ch2.closed = true) ∧
      cleanedCxState.streams = none ∧
      (∀ k, (alookup cleanedCxState.streams_msg_channels k).isSome =
        (alookup cxStateClose.streams_msg_channels k).isSome)) :=
  ⟨rfl, by decide,
    cleanup_finalizes_streams cxStateClose [(sid0, cxStreamLocalClosed)]
      [(sid0, finalizeStream cxStreamLocalClosed)] cleanedCxState rfl (by decide)⟩
